import Mathlib

/-!
Verification of the multilingual mandi platform search and catalog subsystem.

The definitions below are a shallow embedding of the Python sources:

* `Product` and its mutators follow `src/mandi_platform/models/product.py`
  (class `Product`).  SQLAlchemy JSON columns that may be `None` are modelled
  as `Option` values; Python `Decimal` is modelled as `ℚ`; dicts are modelled
  as association lists; Python `datetime` values are modelled as opaque `Int`
  timestamps (only presence or absence matters here).
* The search orchestration follows
  `src/mandi_platform/search/product_search.py`
  (`ProductSearchService.search_products`, `_build_sort_criteria`,
  `_explain_relevance`, and `ProductRecommendationEngine`).
  The Elasticsearch client, the JSON query construction, the suggestion
  generator and the aggregation processor are external collaborators from the
  point of view of the orchestrator arithmetic verified here; they are
  abstracted as the `SearchDeps` record of injected functions, with failures
  represented as `Except.error` results (the Python code wraps the whole
  orchestration body in `try`/`except Exception`).
-/

/-- Availability values of `AvailabilityStatus` in `models/enums.py`. -/
inductive AvailabilityStatus where
  | available
  | limited_stock
  | out_of_stock
  | seasonal
  | discontinued
  | pre_order
deriving DecidableEq, Repr

/-- Association-list update, modelling the Python dict assignment
`d[key] = value` (keys are unique in the lists we build). -/
def assocSet (m : List (String × String)) (key value : String) :
    List (String × String) :=
  match m with
  | [] => [(key, value)]
  | (k0, v0) :: rest =>
    if k0 = key then (key, value) :: rest else (k0, v0) :: assocSet rest key value

/-- Association-list lookup, modelling Python `d.get(key)`. -/
def assocLookup {α : Type} (m : List (String × α)) (key : String) : Option α :=
  match m with
  | [] => none
  | (k0, v0) :: rest => if k0 = key then some v0 else assocLookup rest key

/-- The fields of the SQLAlchemy `Product` model that its mutators touch
(`models/product.py`).  Nullable JSON columns are `Option`; `tags`, `images`
and `search_keywords` are JSON lists; `names`, `descriptions` and
`attributes` are JSON dicts (association lists here).  Attribute values
(`Any` in Python) are modelled as strings, which is enough for the claims
about the sync bookkeeping. -/
structure Product where
  names : Option (List (String × String))
  descriptions : Option (List (String × String))
  images : Option (List String)
  tags : Option (List String)
  search_keywords : Option (List String)
  attributes : Option (List (String × String))
  stock_quantity : Option ℚ
  availability_status : AvailabilityStatus
  elasticsearch_synced_at : Option Int
  elasticsearch_sync_version : Int
deriving DecidableEq, Repr

/-- The Python method `Product._mark_for_elasticsearch_sync`:
increment `elasticsearch_sync_version` and clear `elasticsearch_synced_at`. -/
def Product.mark_for_elasticsearch_sync (p : Product) : Product :=
  { p with
    elasticsearch_sync_version := p.elasticsearch_sync_version + 1
    elasticsearch_synced_at := none }

/-- `Product.set_name`: write `names[language] = name` (creating the dict if
it was `None`) and mark for sync, unconditionally. -/
def Product.set_name (p : Product) (language name : String) : Product :=
  let ns := p.names.getD []
  Product.mark_for_elasticsearch_sync { p with names := some (assocSet ns language name) }

/-- `Product.set_description`: write `descriptions[language] = description`
and mark for sync, unconditionally. -/
def Product.set_description (p : Product) (language description : String) : Product :=
  let ds := p.descriptions.getD []
  Product.mark_for_elasticsearch_sync
    { p with descriptions := some (assocSet ds language description) }

/-- `Product.add_image`: append the URL and mark for sync only when it is not
already present. -/
def Product.add_image (p : Product) (image_url : String) : Product :=
  let imgs := p.images.getD []
  if image_url ∈ imgs then { p with images := some imgs }
  else Product.mark_for_elasticsearch_sync { p with images := some (imgs ++ [image_url]) }

/-- `Product.add_tag`: append the tag and mark for sync only when it is not
already present. -/
def Product.add_tag (p : Product) (tag : String) : Product :=
  let ts := p.tags.getD []
  if tag ∈ ts then { p with tags := some ts }
  else Product.mark_for_elasticsearch_sync { p with tags := some (ts ++ [tag]) }

/-- `Product.add_search_keyword`: append the keyword and mark for sync only
when it is not already present. -/
def Product.add_search_keyword (p : Product) (keyword : String) : Product :=
  let ks := p.search_keywords.getD []
  if keyword ∈ ks then { p with search_keywords := some ks }
  else Product.mark_for_elasticsearch_sync
    { p with search_keywords := some (ks ++ [keyword]) }

/-- `Product.set_attribute`: write `attributes[key] = value` and mark for
sync, unconditionally. -/
def Product.set_attribute (p : Product) (key value : String) : Product :=
  let attrs := p.attributes.getD []
  Product.mark_for_elasticsearch_sync
    { p with attributes := some (assocSet attrs key value) }

/-- `Product.update_stock`: store the new quantity, derive the availability
status from the fixed thresholds (`<= 0`, `<= 10`, else), then mark for
sync. -/
def Product.update_stock (p : Product) (new_quantity : ℚ) : Product :=
  let p1 : Product := { p with stock_quantity := some new_quantity }
  let p2 : Product :=
    if new_quantity ≤ 0 then { p1 with availability_status := AvailabilityStatus.out_of_stock }
    else if new_quantity ≤ 10 then
      { p1 with availability_status := AvailabilityStatus.limited_stock }
    else { p1 with availability_status := AvailabilityStatus.available }
  Product.mark_for_elasticsearch_sync p2

/-- A concrete product used by witnesses: fresh dict and list columns, in
stock, synced at time 0, sync version 1 (the column default). -/
def sampleProduct : Product :=
  { names := some [("en", "Tomato")]
    descriptions := some []
    images := some ["http://img/1"]
    tags := some ["fresh"]
    search_keywords := some ["veg"]
    attributes := some [("origin", "local")]
    stock_quantity := some 100
    availability_status := AvailabilityStatus.available
    elasticsearch_synced_at := some 0
    elasticsearch_sync_version := 1 }

/-- The availability branch of `update_stock`, extracted for reuse. -/
lemma update_stock_status_eq (p : Product) (q : ℚ) :
    (p.update_stock q).availability_status =
      if q ≤ 0 then AvailabilityStatus.out_of_stock
      else if q ≤ 10 then AvailabilityStatus.limited_stock
      else AvailabilityStatus.available := by
  simp only [Product.update_stock, Product.mark_for_elasticsearch_sync]
  split_ifs <;> rfl

/-- The stored quantity after `update_stock`, extracted for reuse. -/
lemma update_stock_quantity_eq (p : Product) (q : ℚ) :
    (p.update_stock q).stock_quantity = some q := by
  simp only [Product.update_stock, Product.mark_for_elasticsearch_sync]
  split_ifs <;> rfl

/-- C2: for every stock update with new quantity `q`: `q ≤ 0` yields
`OUT_OF_STOCK`; `0 < q ≤ 10` yields `LIMITED_STOCK`; `q > 10` yields
`AVAILABLE`; and `stock_quantity` is set to `q`. -/
theorem update_stock_availability (p : Product) (q : ℚ) :
    ((q ≤ 0 → (p.update_stock q).availability_status = AvailabilityStatus.out_of_stock) ∧
      (0 < q → q ≤ 10 →
        (p.update_stock q).availability_status = AvailabilityStatus.limited_stock) ∧
      (10 < q → (p.update_stock q).availability_status = AvailabilityStatus.available)) ∧
    (p.update_stock q).stock_quantity = some q := by
  refine ⟨⟨?_, ?_, ?_⟩, update_stock_quantity_eq p q⟩
  · intro h
    rw [update_stock_status_eq, if_pos h]
  · intro h0 h10
    rw [update_stock_status_eq, if_neg (by linarith), if_pos h10]
  · intro h10
    rw [update_stock_status_eq, if_neg (by linarith), if_neg (by linarith)]

/-- Witness for C2 at concrete quantities 0, 5 and 50. -/
theorem update_stock_availability_witness :
    (sampleProduct.update_stock 0).availability_status = AvailabilityStatus.out_of_stock ∧
    (sampleProduct.update_stock 5).availability_status = AvailabilityStatus.limited_stock ∧
    (sampleProduct.update_stock 50).availability_status = AvailabilityStatus.available ∧
    (sampleProduct.update_stock 5).stock_quantity = some 5 :=
  ⟨(update_stock_availability sampleProduct 0).1.1 (by norm_num),
   (update_stock_availability sampleProduct 5).1.2.1 (by norm_num) (by norm_num),
   (update_stock_availability sampleProduct 50).1.2.2 (by norm_num),
   (update_stock_availability sampleProduct 5).2⟩

/-- The sync bookkeeping of `add_tag`, split by whether the tag is already
present (the Python method only calls `_mark_for_elasticsearch_sync` inside
the `if tag not in self.tags` branch). -/
lemma add_tag_sync_eq (p : Product) (tag : String) :
    (p.add_tag tag).elasticsearch_sync_version =
      p.elasticsearch_sync_version + (if tag ∈ p.tags.getD [] then 0 else 1) ∧
    (p.add_tag tag).elasticsearch_synced_at =
      (if tag ∈ p.tags.getD [] then p.elasticsearch_synced_at else none) ∧
    (p.add_tag tag).tags = some ((p.tags.getD []) ++ (if tag ∈ p.tags.getD [] then [] else [tag])) := by
  simp only [Product.add_tag, Product.mark_for_elasticsearch_sync]
  split_ifs with h <;> simp

/-- C8 (counterexample): on `sampleProduct`, adding the tag "new" twice
leaves the tag list unchanged after the second add, but the sync version
after the two calls is `v + 1`, not the `v + 2` the claim requires — the
duplicate add does not increment `sync_version`. -/
theorem add_tag_double_sync_counterexample :
    ((sampleProduct.add_tag "new").add_tag "new").tags = (sampleProduct.add_tag "new").tags ∧
    ((sampleProduct.add_tag "new").add_tag "new").elasticsearch_sync_version =
      sampleProduct.elasticsearch_sync_version + 1 ∧
    ¬ (((sampleProduct.add_tag "new").add_tag "new").elasticsearch_sync_version =
        sampleProduct.elasticsearch_sync_version + 2) := by
  refine ⟨by decide, by decide, by decide⟩

/-- C8 (amended): adding the same tag twice leaves the tag list length
unchanged after the second add, and the second (duplicate) add leaves
`sync_version` unchanged — over the two calls the version grows by 1 when
the tag was new and by 0 when it was already present, never by one per
call. -/
theorem add_tag_idempotent (p : Product) (tag : String) :
    (((p.add_tag tag).add_tag tag).tags.getD []).length =
      ((p.add_tag tag).tags.getD []).length ∧
    ((p.add_tag tag).add_tag tag).elasticsearch_sync_version =
      (p.add_tag tag).elasticsearch_sync_version ∧
    (p.add_tag tag).elasticsearch_sync_version =
      p.elasticsearch_sync_version + (if tag ∈ p.tags.getD [] then 0 else 1) := by
  have h1 := add_tag_sync_eq p tag
  have hmem : tag ∈ (p.add_tag tag).tags.getD [] := by
    rw [h1.2.2]
    split_ifs with h
    · simpa using h
    · simp
  have h2 := add_tag_sync_eq (p.add_tag tag) tag
  refine ⟨?_, ?_, h1.1⟩
  · rw [h2.2.2, if_pos hmem]
    simp
  · rw [h2.1, if_pos hmem, add_zero]

/-- The sync bookkeeping of `add_image` (mark only when the URL is new). -/
lemma add_image_sync_eq (p : Product) (image_url : String) :
    (p.add_image image_url).elasticsearch_sync_version =
      p.elasticsearch_sync_version + (if image_url ∈ p.images.getD [] then 0 else 1) ∧
    (p.add_image image_url).elasticsearch_synced_at =
      (if image_url ∈ p.images.getD [] then p.elasticsearch_synced_at else none) := by
  simp only [Product.add_image, Product.mark_for_elasticsearch_sync]
  split_ifs with h <;> simp

/-- The sync bookkeeping of `add_search_keyword` (mark only when new). -/
lemma add_search_keyword_sync_eq (p : Product) (keyword : String) :
    (p.add_search_keyword keyword).elasticsearch_sync_version =
      p.elasticsearch_sync_version + (if keyword ∈ p.search_keywords.getD [] then 0 else 1) ∧
    (p.add_search_keyword keyword).elasticsearch_synced_at =
      (if keyword ∈ p.search_keywords.getD [] then p.elasticsearch_synced_at else none) := by
  simp only [Product.add_search_keyword, Product.mark_for_elasticsearch_sync]
  split_ifs with h <;> simp

/-- The sync bookkeeping of `update_stock` (marks unconditionally). -/
lemma update_stock_sync_eq (p : Product) (q : ℚ) :
    (p.update_stock q).elasticsearch_sync_version = p.elasticsearch_sync_version + 1 ∧
    (p.update_stock q).elasticsearch_synced_at = none := by
  simp only [Product.update_stock, Product.mark_for_elasticsearch_sync]
  split_ifs <;> simp

/-- C10: the scalar setters `set_name`, `set_description`, `set_attribute`
and `update_stock` unconditionally increment `elasticsearch_sync_version` by
exactly 1 and reset `elasticsearch_synced_at` to null on every call — the
universal quantification covers the case where the written value equals the
stored one — whereas a duplicate `add_tag`, `add_image` or
`add_search_keyword` leaves both fields unchanged. -/
theorem scalar_setters_force_resync (p : Product)
    (language name description key value tag image_url keyword : String) (q : ℚ) :
    ((p.set_name language name).elasticsearch_sync_version =
        p.elasticsearch_sync_version + 1 ∧
      (p.set_name language name).elasticsearch_synced_at = none) ∧
    ((p.set_description language description).elasticsearch_sync_version =
        p.elasticsearch_sync_version + 1 ∧
      (p.set_description language description).elasticsearch_synced_at = none) ∧
    ((p.set_attribute key value).elasticsearch_sync_version =
        p.elasticsearch_sync_version + 1 ∧
      (p.set_attribute key value).elasticsearch_synced_at = none) ∧
    ((p.update_stock q).elasticsearch_sync_version = p.elasticsearch_sync_version + 1 ∧
      (p.update_stock q).elasticsearch_synced_at = none) ∧
    (tag ∈ p.tags.getD [] →
      (p.add_tag tag).elasticsearch_sync_version = p.elasticsearch_sync_version ∧
      (p.add_tag tag).elasticsearch_synced_at = p.elasticsearch_synced_at) ∧
    (image_url ∈ p.images.getD [] →
      (p.add_image image_url).elasticsearch_sync_version = p.elasticsearch_sync_version ∧
      (p.add_image image_url).elasticsearch_synced_at = p.elasticsearch_synced_at) ∧
    (keyword ∈ p.search_keywords.getD [] →
      (p.add_search_keyword keyword).elasticsearch_sync_version =
        p.elasticsearch_sync_version ∧
      (p.add_search_keyword keyword).elasticsearch_synced_at =
        p.elasticsearch_synced_at) := by
  refine ⟨⟨rfl, rfl⟩, ⟨rfl, rfl⟩, ⟨rfl, rfl⟩, update_stock_sync_eq p q, ?_, ?_, ?_⟩
  · intro h
    have hs := add_tag_sync_eq p tag
    exact ⟨by rw [hs.1, if_pos h, add_zero], by rw [hs.2.1, if_pos h]⟩
  · intro h
    have hs := add_image_sync_eq p image_url
    exact ⟨by rw [hs.1, if_pos h, add_zero], by rw [hs.2, if_pos h]⟩
  · intro h
    have hs := add_search_keyword_sync_eq p keyword
    exact ⟨by rw [hs.1, if_pos h, add_zero], by rw [hs.2, if_pos h]⟩

/-- Witness for C10 at `sampleProduct`: the name written equals the stored
name (a no-op write) yet the version is bumped; the duplicate tag, image and
keyword adds leave the version and sync timestamp unchanged. -/
theorem scalar_setters_force_resync_witness :
    ((sampleProduct.set_name "en" "Tomato").elasticsearch_sync_version =
        sampleProduct.elasticsearch_sync_version + 1 ∧
      (sampleProduct.set_name "en" "Tomato").elasticsearch_synced_at = none) ∧
    ((sampleProduct.add_tag "fresh").elasticsearch_sync_version =
        sampleProduct.elasticsearch_sync_version ∧
      (sampleProduct.add_tag "fresh").elasticsearch_synced_at =
        sampleProduct.elasticsearch_synced_at) ∧
    ((sampleProduct.add_image "http://img/1").elasticsearch_sync_version =
        sampleProduct.elasticsearch_sync_version ∧
      (sampleProduct.add_image "http://img/1").elasticsearch_synced_at =
        sampleProduct.elasticsearch_synced_at) ∧
    ((sampleProduct.add_search_keyword "veg").elasticsearch_sync_version =
        sampleProduct.elasticsearch_sync_version ∧
      (sampleProduct.add_search_keyword "veg").elasticsearch_synced_at =
        sampleProduct.elasticsearch_synced_at) :=
  ⟨(scalar_setters_force_resync sampleProduct "en" "Tomato" "d" "k" "v" "fresh"
      "http://img/1" "veg" 1).1,
   (scalar_setters_force_resync sampleProduct "en" "Tomato" "d" "k" "v" "fresh"
      "http://img/1" "veg" 1).2.2.2.2.1 (by decide),
   (scalar_setters_force_resync sampleProduct "en" "Tomato" "d" "k" "v" "fresh"
      "http://img/1" "veg" 1).2.2.2.2.2.1 (by decide),
   (scalar_setters_force_resync sampleProduct "en" "Tomato" "d" "k" "v" "fresh"
      "http://img/1" "veg" 1).2.2.2.2.2.2 (by decide)⟩

/-- A sort criterion as built by `_build_sort_criteria`: an Elasticsearch
sort entry, recorded as the sorted field (or pseudo-field such as `_score`,
`_geo_distance`, `_script`) together with the requested order. -/
structure SortKey where
  field : String
  order : String
deriving DecidableEq, Repr

/-- Python truthiness of `location and location.get("coordinates")` for the
`location: Optional[Dict[str, Any]]` argument: the dict must be non-empty
and hold a truthy value under the key "coordinates" (dict values are
modelled as strings, with the empty string as the falsy value). -/
def locationHasCoordinates : Option (List (String × String)) → Bool
  | none => false
  | some d => !d.isEmpty && (match assocLookup d "coordinates" with
      | some v => !(v = "")
      | none => false)

/-- `ProductSearchService._build_sort_criteria`: the elif chain over
`sort_by`, then `_score desc` appended for every `sort_by` other than
"relevance", then the unconditional `created_at desc` fallback. -/
def build_sort_criteria (sort_by : String)
    (location : Option (List (String × String))) : List SortKey :=
  let sort_criteria : List SortKey :=
    if sort_by = "price_asc" then [⟨"base_price", "asc"⟩]
    else if sort_by = "price_desc" then [⟨"base_price", "desc"⟩]
    else if sort_by = "date_desc" then [⟨"created_at", "desc"⟩]
    else if sort_by = "date_asc" then [⟨"created_at", "asc"⟩]
    else if sort_by = "updated_desc" then [⟨"updated_at", "desc"⟩]
    else if sort_by = "trending" then
      [⟨"is_featured", "desc"⟩, ⟨"updated_at", "desc"⟩, ⟨"_score", "desc"⟩]
    else if sort_by = "distance" ∧ locationHasCoordinates location = true then
      [⟨"_geo_distance", "asc"⟩]
    else if sort_by = "quality_desc" then [⟨"_script", "desc"⟩]
    else []
  let sort_criteria :=
    if sort_by ≠ "relevance" then sort_criteria ++ [⟨"_score", "desc"⟩] else sort_criteria
  sort_criteria ++ [⟨"created_at", "desc"⟩]

/-- A document together with its query score, as seen by the document
store when applying a sort-criteria list (spec section 6 response shape).
Only the fields the built criteria can name are kept; values are rationals
(floats in the store). -/
structure ScoredDoc where
  score : ℚ
  created_at : Int
  updated_at : Int
  base_price : ℚ
  is_featured : Bool
deriving DecidableEq, Repr

/-- The value a sort criterion reads off a document (booleans sort as 0/1;
a field the document lacks sorts as 0). -/
def sortFieldValue (d : ScoredDoc) (f : String) : ℚ :=
  if f = "_score" then d.score
  else if f = "created_at" then (d.created_at : ℚ)
  else if f = "updated_at" then (d.updated_at : ℚ)
  else if f = "base_price" then d.base_price
  else if f = "is_featured" then (if d.is_featured then 1 else 0)
  else 0

/-- Comparison of two documents under a single sort criterion. -/
def cmpKey (k : SortKey) (a b : ScoredDoc) : Ordering :=
  let va := sortFieldValue a k.field
  let vb := sortFieldValue b k.field
  if va = vb then Ordering.eq
  else if k.order = "asc" then (if va < vb then Ordering.lt else Ordering.gt)
  else (if vb < va then Ordering.lt else Ordering.gt)

/-- Lexicographic comparison under a sort-criteria list: the order the
document store applies to results (`Ordering.lt` means the first document
is ranked first). -/
def cmpByCriteria : List SortKey → ScoredDoc → ScoredDoc → Ordering
  | [], _, _ => Ordering.eq
  | k :: rest, a, b =>
    match cmpKey k a b with
    | Ordering.eq => cmpByCriteria rest a b
    | o => o

/-- Concrete documents exhibiting the relevance-sort divergence: document A
has the higher score, document B the later creation date. -/
def relevanceDocA : ScoredDoc :=
  { score := 10, created_at := 1, updated_at := 0, base_price := 0, is_featured := false }

/-- Companion document for the relevance-sort divergence. -/
def relevanceDocB : ScoredDoc :=
  { score := 1, created_at := 2, updated_at := 0, base_price := 0, is_featured := false }

/-- C3 (counterexample): for `sort_by = "relevance"` the built criteria are
exactly `[created_at desc]` — no `_score` key is present at all — so the
resulting order is creation-date order, not score order: the higher-scored
document A is ranked after the later-created document B, while score
descending with created_at tiebreak would rank A first. -/
theorem relevance_sort_counterexample :
    build_sort_criteria "relevance" none = [⟨"created_at", "desc"⟩] ∧
    (⟨"_score", "desc"⟩ : SortKey) ∉ build_sort_criteria "relevance" none ∧
    cmpByCriteria (build_sort_criteria "relevance" none)
      relevanceDocA relevanceDocB = Ordering.gt ∧
    cmpByCriteria [⟨"_score", "desc"⟩, ⟨"created_at", "desc"⟩]
      relevanceDocA relevanceDocB = Ordering.lt := by
  refine ⟨by decide, by decide, by decide, by decide⟩

/-- C3 (amended): every built criteria list ends with `created_at desc` as
the final tiebreak; for every `sort_by` other than "relevance" a
`_score desc` key is appended directly before that tiebreak; but for
`sort_by = "relevance"` the built criteria consist solely of
`created_at desc` (no score key is included). -/
theorem build_sort_criteria_spec (sort_by : String)
    (location : Option (List (String × String))) :
    (build_sort_criteria sort_by location).getLast? = some ⟨"created_at", "desc"⟩ ∧
    (sort_by ≠ "relevance" →
      ∃ pre, build_sort_criteria sort_by location =
        pre ++ [⟨"_score", "desc"⟩, ⟨"created_at", "desc"⟩]) ∧
    build_sort_criteria "relevance" location = [⟨"created_at", "desc"⟩] := by
  refine ⟨?_, ?_, ?_⟩
  · unfold build_sort_criteria
    exact List.getLast?_concat _
  · intro h
    simp only [build_sort_criteria]
    rw [if_pos h, List.append_assoc]
    exact ⟨_, rfl⟩
  · simp [build_sort_criteria]

/-- Witness for C3 (amended) at `sort_by = "price_asc"`. -/
theorem build_sort_criteria_spec_witness :
    ∃ pre, build_sort_criteria "price_asc" none =
      pre ++ [⟨"_score", "desc"⟩, ⟨"created_at", "desc"⟩] :=
  (build_sort_criteria_spec "price_asc" none).2.1 (by decide)

/-- `ProductRecommendationEngine._get_quality_alternatives`: the fixed
quality-grade hierarchy dict, with `["standard", "premium"]` as the
`dict.get` default for grades outside the table. -/
def get_quality_alternatives (current_quality : String) : List String :=
  let quality_hierarchy : List (String × List String) :=
    [("economy", ["economy", "standard", "premium", "organic"]),
     ("standard", ["standard", "premium", "organic"]),
     ("premium", ["premium", "organic"]),
     ("organic", ["organic", "premium"]),
     ("fair_trade", ["fair_trade", "organic", "premium"])]
  (assocLookup quality_hierarchy current_quality).getD ["standard", "premium"]

/-- The hierarchy table exactly as the specification declares it (used as
the reference for the refinement part of C9); grades outside the table are
mapped to the empty list. -/
def declaredQualityHierarchy (grade : String) : List String :=
  if grade = "economy" then ["economy", "standard", "premium", "organic"]
  else if grade = "standard" then ["standard", "premium", "organic"]
  else if grade = "premium" then ["premium", "organic"]
  else if grade = "organic" then ["organic", "premium"]
  else if grade = "fair_trade" then ["fair_trade", "organic", "premium"]
  else []

/-- C9: the alternative-eligible quality grades equal the declared fixed
hierarchy for each of the five source grades, and no grade outside the
declared row is ever returned for a source grade in the table. -/
theorem quality_alternative_hierarchy :
    (get_quality_alternatives "economy" = ["economy", "standard", "premium", "organic"] ∧
      get_quality_alternatives "standard" = ["standard", "premium", "organic"] ∧
      get_quality_alternatives "premium" = ["premium", "organic"] ∧
      get_quality_alternatives "organic" = ["organic", "premium"] ∧
      get_quality_alternatives "fair_trade" = ["fair_trade", "organic", "premium"]) ∧
    ∀ g a, g ∈ ["economy", "standard", "premium", "organic", "fair_trade"] →
      a ∈ get_quality_alternatives g → a ∈ declaredQualityHierarchy g := by
  refine ⟨by decide, ?_⟩
  intro g a hg ha
  fin_cases hg <;> simp_all [get_quality_alternatives, assocLookup, declaredQualityHierarchy]

/-- Witness for C9: "organic" is alternative-eligible for source grade
"economy" and indeed lies in the declared row. -/
theorem quality_alternative_hierarchy_witness :
    "organic" ∈ declaredQualityHierarchy "economy" :=
  quality_alternative_hierarchy.2 "economy" "organic" (by decide) (by decide)

/-- The fields of an indexed product document that the orchestrator and the
relevance explainer read (`hit["_source"]` in the response shape of spec
section 6); availability is the string stored in the index. -/
structure EsDoc where
  id : String
  availability_status : String
  is_featured : Bool
  quality_grade : String
deriving DecidableEq, Repr

/-- One search hit: the source document and its `_score` (0 when the store
reports none, per `hit.get("_score", 0)`). -/
structure Hit where
  source : EsDoc
  score : ℚ
deriving DecidableEq, Repr

/-- `ProductSearchService._explain_relevance`: the human-readable factor
list appended to each hit (the `query` argument is unused in the body). -/
def explain_relevance (hit : Hit) (query : String) : List String :=
  let base :=
    if hit.score > 5 then ["High relevance match"]
    else if hit.score > 2 then ["Good relevance match"]
    else ["Basic match"]
  let f1 := if hit.source.is_featured then ["Featured product"] else []
  let f2 := if hit.source.quality_grade ∈ ["premium", "organic"] then ["High quality"] else []
  let f3 := if hit.source.availability_status = "available" then ["In stock"] else []
  base ++ f1 ++ f2 ++ f3

/-- A hit as the loop in `search_products` enriches it before routing:
the source document plus `_score` and `relevance_factors`. -/
structure ResultProduct where
  id : String
  availability_status : String
  is_featured : Bool
  quality_grade : String
  score : ℚ
  relevance_factors : List String
deriving DecidableEq, Repr

/-- The enrichment performed on each hit inside the result loop. -/
def enrichHit (query : String) (hit : Hit) : ResultProduct :=
  { id := hit.source.id
    availability_status := hit.source.availability_status
    is_featured := hit.source.is_featured
    quality_grade := hit.source.quality_grade
    score := hit.score
    relevance_factors := explain_relevance hit query }

/-- The body of the routing loop of `search_products`: the enriched hit is
appended to `out_of_stock_products` when its availability is the string
"out_of_stock" and to `products` otherwise. -/
def partitionStep (query : String) (acc : List ResultProduct × List ResultProduct)
    (hit : Hit) : List ResultProduct × List ResultProduct :=
  let product := enrichHit query hit
  if product.availability_status = "out_of_stock" then (acc.1, acc.2 ++ [product])
  else (acc.1 ++ [product], acc.2)

/-- The routing loop of `search_products` over the returned hits, in hit
order, starting from two empty lists. -/
def partitionHits (query : String) (hits : List Hit) :
    List ResultProduct × List ResultProduct :=
  hits.foldl (partitionStep query) ([], [])

/-- The store response consumed by the orchestrator:
`hits.total.value` and the hit list (aggregations are processed by the
injected facet processor and are not reified here). -/
structure StoreResponse where
  total : Int
  hits : List Hit
deriving DecidableEq, Repr

/-- The arguments of `search_products` that the verified logic reads. -/
structure SearchArgs where
  query : String
  page : Int
  page_size : Int
  sort_by : String
  include_alternatives : Bool
  location : Option (List (String × String))
deriving Repr

/-- The injected collaborators of the orchestrator: query construction and
the document-store call may fail (the Python code wraps the whole body in
`try`/`except Exception`, so a raised error from either is modelled as
`Except.error`); the recommendation and suggestion sub-calls catch their own
errors internally and always return a list. -/
structure SearchDeps where
  build_enhanced_search_query : Except String Unit
  storeSearch : (size : Int) → (from_ : Int) → List SortKey → Except String StoreResponse
  get_alternative_products : String → Int → List ResultProduct
  get_search_suggestions : String → Int → List String
  process_aggregations : StoreResponse → List (String × List (String × Int))

/-- The result envelope assembled by `search_products`. -/
structure SearchResult where
  products : List ResultProduct
  out_of_stock : List ResultProduct
  alternatives : List ResultProduct
  suggestions : List String
  facets : List (String × List (String × Int))
  total : Int
  page : Int
  page_size : Int
  total_pages : Int
  has_next : Bool
  has_prev : Bool
  error : Option String
deriving DecidableEq, Repr

/-- The `except Exception` branch of `search_products`: the empty
envelope carrying the error message. -/
def empty_error_result (args : SearchArgs) (e : String) : SearchResult :=
  { products := [], out_of_stock := [], alternatives := [], suggestions := []
    facets := [], total := 0, page := args.page, page_size := args.page_size
    total_pages := 0, has_next := false, has_prev := false, error := some e }

/-- The success path of `search_products` after the store responded:
partition the hits, fetch alternatives for the first 3 out-of-stock hits
(2 each) when requested, fetch suggestions when results are scarce, and
assemble the pagination arithmetic exactly as in the Python source
(`//` is floor division, modelled by `Int.fdiv`). -/
def assemble_search_result (deps : SearchDeps) (args : SearchArgs)
    (response : StoreResponse) : SearchResult :=
  let total := response.total
  let pair := partitionHits args.query response.hits
  let products := pair.1
  let out_of_stock_products := pair.2
  let alternatives : List ResultProduct :=
    if args.include_alternatives = true ∧ out_of_stock_products ≠ [] then
      (out_of_stock_products.take 3).foldl
        (fun acc oos_product =>
          let product_alternatives := deps.get_alternative_products oos_product.id 2
          if product_alternatives ≠ [] then acc ++ product_alternatives else acc)
        []
    else []
  let suggestions : List String :=
    if total < 5 ∧ args.query ≠ "" then deps.get_search_suggestions args.query 3 else []
  let facets := deps.process_aggregations response
  { products := products, out_of_stock := out_of_stock_products
    alternatives := alternatives, suggestions := suggestions, facets := facets
    total := total, page := args.page, page_size := args.page_size
    total_pages := (total + args.page_size - 1).fdiv args.page_size
    has_next := decide (args.page * args.page_size < total)
    has_prev := decide (args.page > 1), error := none }

/-- `ProductSearchService.search_products`: build the query and sort
criteria, call the store at offset `(page - 1) * page_size`, and assemble
the envelope; any failure before that point yields the empty error
envelope of the `except` branch (the function itself is total: it never
raises). -/
def search_products (deps : SearchDeps) (args : SearchArgs) : SearchResult :=
  match deps.build_enhanced_search_query with
  | Except.error e => empty_error_result args e
  | Except.ok _ =>
    match deps.storeSearch args.page_size ((args.page - 1) * args.page_size)
        (build_sort_criteria args.sort_by args.location) with
    | Except.error e => empty_error_result args e
    | Except.ok response => assemble_search_result deps args response

/-- The routing loop, run from arbitrary accumulators: products collect the
enriched non-out-of-stock hits in order, out-of-stock the rest. -/
lemma partitionHits_foldl (query : String) (hits : List Hit)
    (a b : List ResultProduct) :
    hits.foldl (partitionStep query) (a, b) =
      (a ++ (hits.filter
          fun h => !(decide ((enrichHit query h).availability_status = "out_of_stock"))).map
            (enrichHit query),
       b ++ (hits.filter
          fun h => decide ((enrichHit query h).availability_status = "out_of_stock")).map
            (enrichHit query)) := by
  induction hits generalizing a b with
  | nil => simp
  | cons h t ih =>
    rw [List.foldl_cons]
    by_cases hc : (enrichHit query h).availability_status = "out_of_stock"
    · rw [show partitionStep query (a, b) h = (a, b ++ [enrichHit query h]) from by
        simp [partitionStep, hc]]
      rw [ih]
      simp [List.filter_cons, hc]
    · rw [show partitionStep query (a, b) h = (a ++ [enrichHit query h], b) from by
        simp [partitionStep, hc]]
      rw [ih]
      simp [List.filter_cons, hc]

/-- Closed form of `partitionHits`. -/
lemma partitionHits_eq (query : String) (hits : List Hit) :
    partitionHits query hits =
      ((hits.filter
          fun h => !(decide ((enrichHit query h).availability_status = "out_of_stock"))).map
            (enrichHit query),
       (hits.filter
          fun h => decide ((enrichHit query h).availability_status = "out_of_stock")).map
            (enrichHit query)) := by
  unfold partitionHits
  simpa using partitionHits_foldl query hits [] []

/-- A filter and its complement split the length of a list. -/
lemma length_filter_not_add {α : Type} (p : α → Bool) (l : List α) :
    (l.filter fun x => !(p x)).length + (l.filter p).length = l.length := by
  induction l with
  | nil => rfl
  | cons h t ih =>
    by_cases hc : p h = true <;> simp [List.filter_cons, hc] <;> omega

/-- Reduction of `search_products` on the success path. -/
lemma search_products_ok (deps : SearchDeps) (args : SearchArgs)
    (response : StoreResponse)
    (hq : deps.build_enhanced_search_query = Except.ok ())
    (hs : deps.storeSearch args.page_size ((args.page - 1) * args.page_size)
        (build_sort_criteria args.sort_by args.location) = Except.ok response) :
    search_products deps args = assemble_search_result deps args response := by
  unfold search_products
  rw [hq, hs]

/-- C1: on every successful search, the orchestrator partitions the returned
hits completely: the lengths of `products` and `out_of_stock` sum to the
number of raw hits, every element of `out_of_stock` has availability
"out_of_stock", and no element of `products` does. -/
theorem search_partitions_hits (deps : SearchDeps) (args : SearchArgs)
    (response : StoreResponse)
    (hq : deps.build_enhanced_search_query = Except.ok ())
    (hs : deps.storeSearch args.page_size ((args.page - 1) * args.page_size)
        (build_sort_criteria args.sort_by args.location) = Except.ok response) :
    (search_products deps args).products.length +
        (search_products deps args).out_of_stock.length = response.hits.length ∧
    (∀ x ∈ (search_products deps args).out_of_stock,
        x.availability_status = "out_of_stock") ∧
    (∀ x ∈ (search_products deps args).products,
        x.availability_status ≠ "out_of_stock") := by
  rw [search_products_ok deps args response hq hs]
  have hp : (assemble_search_result deps args response).products =
      (partitionHits args.query response.hits).1 := rfl
  have ho : (assemble_search_result deps args response).out_of_stock =
      (partitionHits args.query response.hits).2 := rfl
  rw [hp, ho, partitionHits_eq]
  refine ⟨?_, ?_, ?_⟩
  · simp only [List.length_map]
    exact length_filter_not_add _ _
  · intro x hx
    simp only [List.mem_map] at hx
    obtain ⟨h, hmem, rfl⟩ := hx
    have := List.of_mem_filter hmem
    simpa using this
  · intro x hx
    simp only [List.mem_map] at hx
    obtain ⟨h, hmem, rfl⟩ := hx
    have := List.of_mem_filter hmem
    simpa using this

/-- A concrete available hit for witnesses. -/
def hitA : Hit :=
  { source := { id := "P1", availability_status := "available",
                is_featured := false, quality_grade := "standard" }, score := 3 }

/-- A concrete out-of-stock hit for witnesses. -/
def hitO : Hit :=
  { source := { id := "P2", availability_status := "out_of_stock",
                is_featured := false, quality_grade := "standard" }, score := 2 }

/-- A concrete store response with one available and one out-of-stock hit. -/
def sampleResponse : StoreResponse := { total := 2, hits := [hitA, hitO] }

/-- Finished collaborators that always succeed and return `sampleResponse`. -/
def okDeps : SearchDeps :=
  { build_enhanced_search_query := Except.ok ()
    storeSearch := fun _ _ _ => Except.ok sampleResponse
    get_alternative_products := fun _ _ => []
    get_search_suggestions := fun _ _ => []
    process_aggregations := fun _ => [] }

/-- Concrete search arguments for witnesses. -/
def sampleArgs : SearchArgs :=
  { query := "tomato", page := 1, page_size := 20, sort_by := "relevance"
    include_alternatives := true, location := none }

/-- Witness for C1 at the concrete store response. -/
theorem search_partitions_hits_witness :
    (search_products okDeps sampleArgs).products.length +
        (search_products okDeps sampleArgs).out_of_stock.length =
      sampleResponse.hits.length :=
  (search_partitions_hits okDeps sampleArgs sampleResponse rfl rfl).1

/-- Python floor division `(total + page_size - 1) // page_size` computes
the rational ceiling of `total / page_size` for every positive page size. -/
lemma fdiv_pagination_eq_ceil (total page_size : Int) (hps : 1 ≤ page_size) :
    (total + page_size - 1).fdiv page_size = ⌈(total : ℚ) / (page_size : ℚ)⌉ := by
  have hb : 0 < page_size := hps
  rw [Int.fdiv_eq_ediv _ (le_of_lt hb)]
  have hdm := Int.ediv_add_emod (total + page_size - 1) page_size
  have hr0 : 0 ≤ (total + page_size - 1) % page_size :=
    Int.emod_nonneg _ (by omega)
  have hrb : (total + page_size - 1) % page_size < page_size :=
    Int.emod_lt_of_pos _ hb
  have hbq : (0 : ℚ) < (page_size : ℚ) := by exact_mod_cast hb
  symm
  rw [Int.ceil_eq_iff]
  constructor
  · rw [lt_div_iff₀ hbq]
    have hint : ((total + page_size - 1) / page_size - 1) * page_size < total := by
      have hexp : ((total + page_size - 1) / page_size - 1) * page_size =
          page_size * ((total + page_size - 1) / page_size) - page_size := by ring
      omega
    exact_mod_cast hint
  · rw [div_le_iff₀ hbq]
    have hint : total ≤ ((total + page_size - 1) / page_size) * page_size := by
      have hexp : ((total + page_size - 1) / page_size) * page_size =
          page_size * ((total + page_size - 1) / page_size) := by ring
      omega
    exact_mod_cast hint

/-- C4: on every successful search with `total ≥ 0` and `page_size ≥ 1`, the
assembled pagination metadata satisfies `total_pages = ceil(total /
page_size)`, `has_next = (page * page_size < total)` and
`has_prev = (page > 1)`. -/
theorem search_pagination_arithmetic (deps : SearchDeps) (args : SearchArgs)
    (response : StoreResponse)
    (hq : deps.build_enhanced_search_query = Except.ok ())
    (hs : deps.storeSearch args.page_size ((args.page - 1) * args.page_size)
        (build_sort_criteria args.sort_by args.location) = Except.ok response)
    (htotal : 0 ≤ response.total) (hps : 1 ≤ args.page_size) :
    (search_products deps args).total_pages =
        ⌈(response.total : ℚ) / (args.page_size : ℚ)⌉ ∧
    ((search_products deps args).has_next = true ↔
        args.page * args.page_size < response.total) ∧
    ((search_products deps args).has_prev = true ↔ 1 < args.page) := by
  rw [search_products_ok deps args response hq hs]
  refine ⟨?_, ?_, ?_⟩
  · have h1 : (assemble_search_result deps args response).total_pages =
        (response.total + args.page_size - 1).fdiv args.page_size := rfl
    rw [h1]
    exact fdiv_pagination_eq_ceil response.total args.page_size hps
  · have h2 : (assemble_search_result deps args response).has_next =
        decide (args.page * args.page_size < response.total) := rfl
    rw [h2]
    exact decide_eq_true_iff
  · have h3 : (assemble_search_result deps args response).has_prev =
        decide (args.page > 1) := rfl
    rw [h3]
    exact decide_eq_true_iff

/-- Witness for C4 at the concrete response (total 2, page 1, page size
20). -/
theorem search_pagination_arithmetic_witness :
    (search_products okDeps sampleArgs).total_pages =
        ⌈(sampleResponse.total : ℚ) / (sampleArgs.page_size : ℚ)⌉ ∧
    ((search_products okDeps sampleArgs).has_next = true ↔
        sampleArgs.page * sampleArgs.page_size < sampleResponse.total) ∧
    ((search_products okDeps sampleArgs).has_prev = true ↔ 1 < sampleArgs.page) :=
  search_pagination_arithmetic okDeps sampleArgs sampleResponse rfl rfl
    (by decide) (by decide)

/-- C6: whenever query building or the store call fails with any error, the
orchestrator returns (it never raises — it is a total function) the
well-formed empty envelope: all lists empty, total 0, total_pages 0,
has_next and has_prev false, and the error field populated with the
message. -/
theorem search_error_envelope (deps : SearchDeps) (args : SearchArgs) (e : String)
    (h : deps.build_enhanced_search_query = Except.error e ∨
      (deps.build_enhanced_search_query = Except.ok () ∧
        deps.storeSearch args.page_size ((args.page - 1) * args.page_size)
          (build_sort_criteria args.sort_by args.location) = Except.error e)) :
    search_products deps args =
      { products := [], out_of_stock := [], alternatives := [], suggestions := []
        facets := [], total := 0, page := args.page, page_size := args.page_size
        total_pages := 0, has_next := false, has_prev := false, error := some e } := by
  rcases h with h | ⟨h1, h2⟩
  · unfold search_products
    rw [h]
    rfl
  · unfold search_products
    rw [h1, h2]
    rfl

/-- Collaborators whose store call always fails. -/
def storeDownDeps : SearchDeps :=
  { build_enhanced_search_query := Except.ok ()
    storeSearch := fun _ _ _ => Except.error "store timeout"
    get_alternative_products := fun _ _ => []
    get_search_suggestions := fun _ _ => []
    process_aggregations := fun _ => [] }

/-- Witness for C6: a failing store yields exactly the empty envelope. -/
theorem search_error_envelope_witness :
    search_products storeDownDeps sampleArgs =
      { products := [], out_of_stock := [], alternatives := [], suggestions := []
        facets := [], total := 0, page := sampleArgs.page
        page_size := sampleArgs.page_size, total_pages := 0, has_next := false
        has_prev := false, error := some "store timeout" } :=
  search_error_envelope storeDownDeps sampleArgs "store timeout" (Or.inr ⟨rfl, rfl⟩)

/-- A store probe that accepts exactly one offset value and fails on every
other, used to observe which offset `search_products` passes to the
store. -/
def offset_probe_deps (expected_from : Int) (response : StoreResponse) : SearchDeps :=
  { build_enhanced_search_query := Except.ok ()
    storeSearch := fun _ from_ _ =>
      if from_ = expected_from then Except.ok response else Except.error "unexpected offset"
    get_alternative_products := fun _ _ => []
    get_search_suggestions := fun _ _ => []
    process_aggregations := fun _ => [] }

/-- C5 (amended): `search_products` performs no validation or clamping of
`page` and `page_size`: the store is called with exactly the raw offset
`(page - 1) * page_size` (the probe accepting only that offset succeeds,
and a probe expecting any other offset observes the failure), and the raw
`page` and `page_size` are echoed unchanged in the envelope.  Bounds
checking (`page ≥ 1`, `page_size` within [1, 100]) lives in the API schema
layer, which rejects rather than clamps. -/
theorem search_uses_raw_offset (args : SearchArgs) (response : StoreResponse) :
    (search_products (offset_probe_deps ((args.page - 1) * args.page_size) response)
        args).error = none ∧
    (search_products (offset_probe_deps ((args.page - 1) * args.page_size) response)
        args).page = args.page ∧
    (search_products (offset_probe_deps ((args.page - 1) * args.page_size) response)
        args).page_size = args.page_size ∧
    ∀ wrong : Int, wrong ≠ (args.page - 1) * args.page_size →
      (search_products (offset_probe_deps wrong response) args).error =
        some "unexpected offset" := by
  have hok : (offset_probe_deps ((args.page - 1) * args.page_size) response).storeSearch
      args.page_size ((args.page - 1) * args.page_size)
      (build_sort_criteria args.sort_by args.location) = Except.ok response := by
    simp [offset_probe_deps]
  refine ⟨?_, ?_, ?_, ?_⟩
  · rw [search_products_ok _ args response rfl hok]
    rfl
  · rw [search_products_ok _ args response rfl hok]
    rfl
  · rw [search_products_ok _ args response rfl hok]
    rfl
  · intro wrong hw
    have herr : (offset_probe_deps wrong response).storeSearch
        args.page_size ((args.page - 1) * args.page_size)
        (build_sort_criteria args.sort_by args.location) =
        Except.error "unexpected offset" := by
      simp only [offset_probe_deps]
      rw [if_neg (fun hh => hw hh.symm)]
    rw [search_error_envelope _ args "unexpected offset" (Or.inr ⟨rfl, herr⟩)]

/-- Arguments with the malformed `page = 0` that the claim says would be
clamped. -/
def pageZeroArgs : SearchArgs :=
  { query := "", page := 0, page_size := 20, sort_by := "relevance"
    include_alternatives := false, location := none }

/-- C5 (counterexample): with `page = 0` and `page_size = 20` the store is
called with offset -20 (the probe accepting only -20 succeeds) and the
envelope echoes `page = 0`; no normalized pair `page ≥ 1`,
`1 ≤ page_size ≤ 100` can produce that negative offset, so the inputs were
not normalized or clamped. -/
theorem page_zero_not_normalized_counterexample :
    (search_products (offset_probe_deps (-20) sampleResponse) pageZeroArgs).error = none ∧
    (search_products (offset_probe_deps (-20) sampleResponse) pageZeroArgs).page = 0 ∧
    ¬ ∃ p s : Int, 1 ≤ p ∧ 1 ≤ s ∧ s ≤ 100 ∧
        (p - 1) * s = (pageZeroArgs.page - 1) * pageZeroArgs.page_size := by
  refine ⟨by decide, by decide, ?_⟩
  rintro ⟨p, s, hp, hs, _, heq⟩
  have hval : (pageZeroArgs.page - 1) * pageZeroArgs.page_size = -20 := by decide
  rw [hval] at heq
  have hnn : (0 : Int) ≤ (p - 1) * s :=
    mul_nonneg (by linarith) (by linarith)
  rw [heq] at hnn
  linarith

/-- The alternatives loop (`extend` when the per-product list is non-empty)
equals plain concatenation of the per-product lists. -/
lemma alternatives_foldl_eq (f : ResultProduct → List ResultProduct)
    (l : List ResultProduct) (acc : List ResultProduct) :
    l.foldl (fun acc oos_product =>
        let product_alternatives := f oos_product
        if product_alternatives ≠ [] then acc ++ product_alternatives else acc) acc =
      acc ++ (l.map f).flatten := by
  induction l generalizing acc with
  | nil => simp
  | cons h t ih =>
    rw [List.foldl_cons, List.map_cons, List.flatten_cons]
    by_cases hc : f h = []
    · rw [show (let pa := f h
          if pa ≠ [] then acc ++ pa else acc) = acc from by simp [hc]]
      rw [ih, hc]
      simp
    · rw [show (let pa := f h
          if pa ≠ [] then acc ++ pa else acc) = acc ++ f h from by simp [hc]]
      rw [ih, List.append_assoc]

/-- Sum of mapped values, each bounded by `n`, is at most `n * length`. -/
lemma sum_map_le_mul_length (l : List ResultProduct) (g : ResultProduct → ℕ)
    (n : ℕ) (h : ∀ p, g p ≤ n) : (l.map g).sum ≤ n * l.length := by
  induction l with
  | nil => simp
  | cons hd t ih =>
    rw [List.map_cons, List.sum_cons, List.length_cons, Nat.mul_succ]
    have := h hd
    omega

/-- C7 (amended): on every successful search, every assembled alternative
comes from an alternatives fetch for one of the first 3 out-of-stock hits,
each fetch is issued with limit 2 (so, provided the recommendation call
honours its limit, at most 2 entries each and at most `2 * min 3
|out_of_stock|` in total); the assembled list is the plain concatenation of
the per-product lists — it is not deduplicated by id. -/
theorem search_alternatives_policy (deps : SearchDeps) (args : SearchArgs)
    (response : StoreResponse)
    (hq : deps.build_enhanced_search_query = Except.ok ())
    (hs : deps.storeSearch args.page_size ((args.page - 1) * args.page_size)
        (build_sort_criteria args.sort_by args.location) = Except.ok response)
    (hcap : ∀ pid, (deps.get_alternative_products pid 2).length ≤ 2) :
    (∀ x ∈ (search_products deps args).alternatives,
      ∃ p, p ∈ (search_products deps args).out_of_stock.take 3 ∧
        x ∈ deps.get_alternative_products p.id 2) ∧
    (search_products deps args).alternatives.length ≤
      2 * ((search_products deps args).out_of_stock.take 3).length := by
  rw [search_products_ok deps args response hq hs]
  have ho : (assemble_search_result deps args response).out_of_stock =
      (partitionHits args.query response.hits).2 := rfl
  have ha : (assemble_search_result deps args response).alternatives =
      (if args.include_alternatives = true ∧
          (partitionHits args.query response.hits).2 ≠ [] then
        ((partitionHits args.query response.hits).2.take 3).foldl
          (fun acc oos_product =>
            let product_alternatives := deps.get_alternative_products oos_product.id 2
            if product_alternatives ≠ [] then acc ++ product_alternatives else acc)
          []
      else []) := rfl
  rw [ho, ha]
  by_cases hcond : args.include_alternatives = true ∧
      (partitionHits args.query response.hits).2 ≠ []
  · rw [if_pos hcond,
      alternatives_foldl_eq (fun p => deps.get_alternative_products p.id 2)]
    simp only [List.nil_append]
    constructor
    · intro x hx
      rw [List.mem_flatten] at hx
      obtain ⟨sub, hsub, hxsub⟩ := hx
      rw [List.mem_map] at hsub
      obtain ⟨p, hpmem, rfl⟩ := hsub
      exact ⟨p, hpmem, hxsub⟩
    · rw [List.length_flatten, List.map_map]
      exact sum_map_le_mul_length _ _ 2 (fun p => hcap p.id)
  · rw [if_neg hcond]
    exact ⟨fun x hx => absurd hx (List.not_mem_nil x), by simp⟩

/-- Two concrete out-of-stock hits sharing the same best alternative. -/
def oosHit1 : Hit :=
  { source := { id := "O1", availability_status := "out_of_stock",
                is_featured := false, quality_grade := "standard" }, score := 1 }

/-- Second out-of-stock hit for the duplicate-alternative scenario. -/
def oosHit2 : Hit :=
  { source := { id := "O2", availability_status := "out_of_stock",
                is_featured := false, quality_grade := "standard" }, score := 1 }

/-- The shared alternative product returned for both out-of-stock hits. -/
def sharedAlt : ResultProduct :=
  { id := "ALT1", availability_status := "available", is_featured := false
    quality_grade := "standard", score := 0, relevance_factors := [] }

/-- Collaborators where both out-of-stock hits have the same alternative. -/
def dupAltDeps : SearchDeps :=
  { build_enhanced_search_query := Except.ok ()
    storeSearch := fun _ _ _ => Except.ok { total := 2, hits := [oosHit1, oosHit2] }
    get_alternative_products := fun _ _ => [sharedAlt]
    get_search_suggestions := fun _ _ => []
    process_aggregations := fun _ => [] }

/-- C7 (counterexample): with two out-of-stock hits whose alternative
fetches both return the product with id "ALT1", the assembled
`alternatives` list is `[ALT1, ALT1]` — the same id twice, so the list is
not deduplicated by id. -/
theorem alternatives_not_deduplicated_counterexample :
    ((search_products dupAltDeps sampleArgs).alternatives.map (fun a => a.id)) =
      ["ALT1", "ALT1"] ∧
    ¬ ((search_products dupAltDeps sampleArgs).alternatives.map
        (fun a => a.id)).Nodup := by
  refine ⟨by decide, by decide⟩

/-- Witness for C7 (amended) at the duplicate-alternative collaborators. -/
theorem search_alternatives_policy_witness :
    (search_products dupAltDeps sampleArgs).alternatives.length ≤
      2 * ((search_products dupAltDeps sampleArgs).out_of_stock.take 3).length :=
  (search_alternatives_policy dupAltDeps sampleArgs
    { total := 2, hits := [oosHit1, oosHit2] } rfl rfl
    (fun _ => by norm_num [dupAltDeps])).2

/-- Witness for C5 (amended) at `page = 0`, `page_size = 20`: the probe at
the raw offset succeeds and echoes the raw page, and a probe expecting the
offset 7 instead observes the failure. -/
theorem search_uses_raw_offset_witness :
    (search_products
        (offset_probe_deps ((pageZeroArgs.page - 1) * pageZeroArgs.page_size)
          sampleResponse) pageZeroArgs).page = pageZeroArgs.page ∧
    (search_products (offset_probe_deps 7 sampleResponse) pageZeroArgs).error =
      some "unexpected offset" :=
  ⟨(search_uses_raw_offset pageZeroArgs sampleResponse).2.1,
   (search_uses_raw_offset pageZeroArgs sampleResponse).2.2.2 7 (by decide)⟩
